import Mathlib

/-!
Verification development for the Movie-Flix backend (src/backend/main.py).

The development shallowly embeds the content-based recommendation engine:
the cached global state (movies_df, tfidf_matrix, cosine_sim), the index
build `prepare_content_based_filtering`, and the query handler
`get_movie_recommendations`.

Modelling conventions:
- Python floats are idealised as exact real numbers (ℝ); `TfidfVectorizer`
  and `cosine_similarity` are embedded by their documented exact formulas
  (sklearn defaults: lowercasing, token pattern of two-or-more word
  characters, English stop-word removal, smoothed idf, l2 row
  normalisation; `cosine_similarity` l2-normalises rows, with zero rows
  left as zero, and takes pairwise dot products).
- A pandas cell holding NaN (a dict key missing from a record) is embedded
  as `Option.none`; string columns are `Option String`.
- Exceptions are embedded as `Except` values.  The FastAPI handler wraps
  every exception of the `try` block into `HTTPException(status_code=500,
  detail=str(e))`, embedded as an `HErr` value with status 500.
- The module-level globals are a record `AppState`; the build mutates them
  one assignment at a time, exactly in source order, so a failing build
  stops after the assignments already executed.
-/

namespace MovieFlix

/-- A movie record as fetched from the catalog API and held as one row of
`movies_df`.  A missing dict key becomes NaN in pandas, embedded as
`none`. -/
structure Movie where
  id : Int
  title : Option String
  overview : Option String
  poster_path : Option String
deriving DecidableEq, Repr

/-- Placeholder row used only to state `getD` lookups that are proved to be
in bounds. -/
def defaultMovie : Movie := ⟨0, none, none, none⟩

/-- One element of the `recommendations` list returned by the handler:
`movies_df.iloc[...][[ "id", "title", "overview", "poster_path"]]`
converted to records. -/
structure RecOut where
  id : Int
  title : Option String
  overview : Option String
  poster_path : Option String
deriving DecidableEq, Repr

/-- Projection of a DataFrame row to the four public-facing columns
selected at line 118 of main.py. -/
def project (m : Movie) : RecOut := ⟨m.id, m.title, m.overview, m.poster_path⟩

/-- `HTTPException(status_code=..., detail=...)` as raised by the handler. -/
structure HErr where
  status : Nat
  detail : String
deriving DecidableEq, Repr

/-- `str(e)` for the TypeError raised by subscripting the `None` globals. -/
def noneSubscriptMsg : String := "TypeError: NoneType object is not subscriptable"

/-- `str(e)` for the IndexError raised by `.index[0]` on an empty selection. -/
def emptyIndexMsg : String := "IndexError: index 0 is out of bounds for axis 0 with size 0"

/-- `str(e)` for the IndexError raised by `cosine_sim[idx]` when `idx` is
outside the matrix. -/
def rowOutMsg : String := "IndexError: row index is out of bounds for the similarity matrix"

/-- `str(e)` for the IndexError raised by `movies_df.iloc[movie_indices]`
on an out-of-bounds positional indexer. -/
def ilocOutMsg : String := "IndexError: positional indexers are out-of-bounds"

/-- The module-level cache (lines 27-30 of main.py):
`movies_df`, its derived `combined_features` column (added to the same
DataFrame at line 65, kept as a separate aligned field here), the TF-IDF
matrix and the cosine-similarity matrix.  All start as `None`. -/
structure AppState where
  movies_df : Option (List Movie)
  combined_features : Option (List (Option String))
  tfidf_matrix : Option (List (List ℝ))
  cosine_sim : Option (List (List ℝ))

/-- The state at process start: all four globals are `None`. -/
def initialState : AppState := ⟨none, none, none, none⟩

/-! ## Tokenisation and the TF-IDF / cosine-similarity pipeline
(`TfidfVectorizer(stop_words = english)` with sklearn defaults, and
`cosine_similarity`, lines 68-72 of main.py). -/

/-- A word character of the default sklearn token pattern (a `\w` of
`(?u)\b\w\w+\b`): alphanumeric or underscore. -/
def isWordChar (c : Char) : Bool := c.isAlphanum || c == '_'

/-- Splits a character stream into the maximal runs of word characters.
The first accumulator argument collects the current run in reverse. -/
def wordRuns : List Char → List Char → List (List Char)
  | [], acc => if acc.isEmpty then [] else [acc.reverse]
  | c :: cs, acc =>
    if isWordChar c then wordRuns cs (c :: acc)
    else if acc.isEmpty then wordRuns cs [] else acc.reverse :: wordRuns cs []

/-- sklearn tokenisation: lowercase, then keep the maximal word-character
runs of length at least two (token pattern `(?u)\b\w\w+\b`).  Lowercasing
is done character by character, which agrees with Python lowercasing on
the data handled here. -/
def tokenize (s : String) : List String :=
  ((wordRuns (s.toList.map Char.toLower) []).map (fun cs => String.mk cs)).filter
    (fun w => 2 ≤ w.length)

/-- The fixed English stop-word list selected by `stop_words = english`.
Modelled from sklearn's `ENGLISH_STOP_WORDS` frozen set; the development
relies only on membership of common function words (for example "the") and
on non-membership of the content words used in the example corpora. -/
def ENGLISH_STOP_WORDS : List String :=
  ["a", "about", "above", "across", "after", "afterwards", "again",
   "against", "all", "almost", "alone", "along", "already", "also",
   "although", "always", "am", "among", "amongst", "amoungst", "amount",
   "an", "and", "another", "any", "anyhow", "anyone", "anything",
   "anyway", "anywhere", "are", "around", "as", "at", "back", "be",
   "became", "because", "become", "becomes", "becoming", "been",
   "before", "beforehand", "behind", "being", "below", "beside",
   "besides", "between", "beyond", "bill", "both", "bottom", "but",
   "by", "call", "can", "cannot", "cant", "co", "con", "could",
   "couldnt", "cry", "de", "describe", "detail", "do", "done", "down",
   "due", "during", "each", "eg", "eight", "either", "eleven", "else",
   "elsewhere", "empty", "enough", "etc", "even", "ever", "every",
   "everyone", "everything", "everywhere", "except", "few", "fifteen",
   "fifty", "fill", "find", "fire", "first", "five", "for", "former",
   "formerly", "forty", "found", "four", "from", "front", "full",
   "further", "get", "give", "go", "had", "has", "hasnt", "have", "he",
   "hence", "her", "here", "hereafter", "hereby", "herein", "hereupon",
   "hers", "herself", "him", "himself", "his", "how", "however",
   "hundred", "i", "ie", "if", "in", "inc", "indeed", "interest",
   "into", "is", "it", "its", "itself", "keep", "last", "latter",
   "latterly", "least", "less", "ltd", "made", "many", "may", "me",
   "meanwhile", "might", "mill", "mine", "more", "moreover", "most",
   "mostly", "move", "much", "must", "my", "myself", "name", "namely",
   "neither", "never", "nevertheless", "next", "nine", "no", "nobody",
   "none", "noone", "nor", "not", "nothing", "now", "nowhere", "of",
   "off", "often", "on", "once", "one", "only", "onto", "or", "other",
   "others", "otherwise", "our", "ours", "ourselves", "out", "over",
   "own", "part", "per", "perhaps", "please", "put", "rather", "re",
   "same", "see", "seem", "seemed", "seeming", "seems", "serious",
   "several", "she", "should", "show", "side", "since", "sincere",
   "six", "sixty", "so", "some", "somehow", "someone", "something",
   "sometime", "sometimes", "somewhere", "still", "such", "system",
   "take", "ten", "than", "that", "the", "their", "them", "themselves",
   "then", "thence", "there", "thereafter", "thereby", "therefore",
   "therein", "thereupon", "these", "they", "thick", "thin", "third",
   "this", "those", "though", "three", "through", "throughout", "thru",
   "thus", "to", "together", "too", "top", "toward", "towards",
   "twelve", "twenty", "two", "un", "under", "until", "up", "upon",
   "us", "very", "via", "was", "we", "well", "were", "what", "whatever",
   "when", "whence", "whenever", "where", "whereafter", "whereas",
   "whereby", "wherein", "whereupon", "wherever", "whether", "which",
   "while", "whither", "who", "whoever", "whole", "whom", "whose",
   "why", "will", "with", "within", "without", "would", "yet", "you",
   "your", "yours", "yourself", "yourselves"]

/-- The sklearn analyzer: tokenise, then drop stop words. -/
def analyze (s : String) : List String :=
  (tokenize s).filter (fun w => !(ENGLISH_STOP_WORDS.contains w))

/-- The vocabulary fitted from the corpus: every analysed term, once.
(sklearn additionally sorts the vocabulary alphabetically; the column
order is irrelevant to every value computed downstream, so it is kept in
first-occurrence order here.) -/
def vocab (docs : List String) : List String :=
  ((docs.map analyze).flatten).dedup

/-- Raw term frequency of term `t` in document `d`. -/
def tfCount (d t : String) : Nat := (analyze d).count t

/-- Document frequency of term `t` over the corpus. -/
def docFreq (docs : List String) (t : String) : Nat :=
  (docs.filter (fun d => (analyze d).contains t)).length

/-- Smoothed inverse document frequency, sklearn default
(`smooth_idf = True`): `ln((1 + n) / (1 + df)) + 1`. -/
noncomputable def idf (docs : List String) (t : String) : ℝ :=
  Real.log ((1 + docs.length) / (1 + docFreq docs t)) + 1

/-- The unnormalised TF-IDF row of document `d`: one `tf * idf` weight per
vocabulary term. -/
noncomputable def rawRow (docs : List String) (d : String) : List ℝ :=
  (vocab docs).map (fun t => (tfCount d t : ℝ) * idf docs t)

/-- Dot product of two rows (trailing entries of the longer row are
ignored; all rows built here have equal length). -/
noncomputable def dot (u v : List ℝ) : ℝ :=
  (List.zipWith (fun a b => a * b) u v).sum

/-- Euclidean norm of a row. -/
noncomputable def l2norm (u : List ℝ) : ℝ := Real.sqrt (dot u u)

/-- sklearn `normalize`: divide a row by its l2 norm, leaving zero rows
unchanged (sklearn substitutes norm 1 for zero norms). -/
noncomputable def l2normalize (u : List ℝ) : List ℝ :=
  if l2norm u = 0 then u else u.map (fun a => a / l2norm u)

/-- `tfidf.fit_transform(...)` (line 69 of main.py): the l2-normalised
TF-IDF rows of the corpus, sklearn defaults (`norm = l2`). -/
noncomputable def tfidfMatrix (docs : List String) : List (List ℝ) :=
  docs.map (fun d => l2normalize (rawRow docs d))

/-- `cosine_similarity(X, X)` (line 72 of main.py): l2-normalise every row
(zero rows stay zero) and take all pairwise dot products. -/
noncomputable def cosineSimilarity (X : List (List ℝ)) : List (List ℝ) :=
  X.map (fun ri => X.map (fun rj => dot (l2normalize ri) (l2normalize rj)))

/-- Entry `(i, j)` of a matrix, 0 outside the matrix. -/
noncomputable def simEntry (M : List (List ℝ)) (i j : Nat) : ℝ :=
  (M.getD i []).getD j 0

/-! ## The index build (`prepare_content_based_filtering`, lines 55-72) -/

/-- The combined feature of one row:
`movies_df[overview] + " " + movies_df[title]`.  Pandas string addition
propagates NaN: if either operand is missing the sum is NaN (`none`); no
empty-string default is applied anywhere in the source. -/
def featureOf (m : Movie) : Option String :=
  match m.overview, m.title with
  | some o, some t => some (o ++ " " ++ t)
  | _, _ => none

/-- Line 65 of main.py:
`movies_df[combined_features] = movies_df[overview] + " " + movies_df[title]`.
`pd.DataFrame(movies)` only creates a column for a key present in at least
one record, so if every record lacks `overview` (in particular for an
empty list) the subscript raises `KeyError`; likewise for `title`. -/
def combineStep (movies : List Movie) : Except String (List (Option String)) :=
  if movies.all (fun m => m.overview.isNone) then
    Except.error ("KeyError: overview")
  else if movies.all (fun m => m.title.isNone) then
    Except.error ("KeyError: title")
  else
    Except.ok (movies.map featureOf)

/-- The documents `TfidfVectorizer` actually receives once the NaN check
has passed: each feature cell read as a string. -/
def docsOf (feats : List (Option String)) : List String :=
  feats.map (fun f => f.getD "")

/-- Line 69 of main.py, `tfidf.fit_transform(movies_df[combined_features])`:
raises `ValueError` on a NaN document, and raises
`ValueError: empty vocabulary` when no document contributes a term (for
example when every document contains only stop words).  On success it
yields the document list the TF-IDF matrix is computed from. -/
def tfidfStep (feats : List (Option String)) : Except String (List String) :=
  if feats.any (fun f => f.isNone) then
    Except.error ("ValueError: np.nan is an invalid document")
  else if (vocab (docsOf feats)).isEmpty then
    Except.error ("ValueError: empty vocabulary, perhaps the documents only contain stop words")
  else
    Except.ok (docsOf feats)

/-- `prepare_content_based_filtering()` (lines 55-72 of main.py), given the
outcome of the `fetch_popular_movies()` network call.  The body assigns
the module globals one at a time, in source order:
line 62 rebinds `movies_df` (a fresh DataFrame, so any previous combined
column is gone), line 65 adds the combined column, line 69 rebinds
`tfidf_matrix`, line 72 rebinds `cosine_sim`.  An exception aborts the
remaining assignments but does not undo earlier ones.  The second
component reports the outcome (`cosine_similarity` on a well-formed
numeric matrix does not raise, so a run that reaches line 72 succeeds). -/
noncomputable def prepareOk (movies : List Movie) (st : AppState) :
    AppState × Except String Unit :=
  let st1 : AppState :=
    { st with movies_df := some movies, combined_features := none }
  match combineStep movies with
  | Except.error e => (st1, Except.error e)
  | Except.ok feats =>
    let st2 : AppState := { st1 with combined_features := some feats }
    match tfidfStep feats with
    | Except.error e => (st2, Except.error e)
    | Except.ok docs =>
      let st3 : AppState :=
        { st2 with tfidf_matrix := some (tfidfMatrix docs) }
      ({ st3 with cosine_sim := some (cosineSimilarity (tfidfMatrix docs)) },
       Except.ok ())

noncomputable def prepare : Except String (List Movie) → AppState →
    AppState × Except String Unit
  | Except.error e, st => (st, Except.error e)
  | Except.ok movies, st => prepareOk movies st

/-! ## The recommendation query (`get_movie_recommendations`, lines 99-121) -/

/-- Line 103 of main.py:
`idx = movies_df[movies_df[id] == movie_id].index[0]` — the row labels of
the DataFrame are the positions 0..n-1, so the boolean-mask selection
followed by `.index[0]` is the head of the list of positions whose row has
the requested id (`none` embeds the IndexError of `.index[0]` on an empty
selection). -/
def matchingIdx (df : List Movie) (movie_id : Int) : Option Nat :=
  ((df.enum.filter (fun p => p.2.id == movie_id)).map (fun p => p.1)).head?

/-- One step of the stable descending insertion used to model line 109:
the new element is placed before the first element whose score is not
strictly greater, so earlier elements win ties. -/
noncomputable def insertDesc (x : Nat × ℝ) : List (Nat × ℝ) → List (Nat × ℝ)
  | [] => [x]
  | y :: ys => if x.2 < y.2 then y :: insertDesc x ys else x :: y :: ys

/-- Line 109 of main.py:
`sorted(sim_scores, key=lambda x: x[1], reverse=True)`.  Python's sort is
stable also under `reverse=True`: scores descend, and equal scores keep
their original (ascending-index) order.  A stable sort's output is
determined uniquely by the key and the input order, so this insertion
sort is extensionally the sort the source performs. -/
noncomputable def sortDesc : List (Nat × ℝ) → List (Nat × ℝ)
  | [] => []
  | x :: xs => insertDesc x (sortDesc xs)

/-- Lines 106-119 of main.py after the row of the similarity matrix has
been fetched: enumerate the row (line 106), sort by score descending
(line 109), slice `[1:6]` (line 112), project to indices (line 115) and
resolve the rows via `iloc` (line 118), which raises IndexError on an
out-of-bounds positional indexer. -/
noncomputable def recommendCore (df : List Movie) (row : List ℝ) :
    Except HErr (List RecOut) :=
  let sim_scores := row.enum
  let sorted_scores := sortDesc sim_scores
  let top := (sorted_scores.drop 1).take 5
  let movie_indices := top.map (fun p => p.1)
  if movie_indices.all (fun j => decide (j < df.length)) then
    Except.ok (movie_indices.map (fun j => project (df.getD j defaultMovie)))
  else
    Except.error ⟨500, ilocOutMsg⟩

/-- `get_movie_recommendations(movie_id)` (lines 99-121 of main.py).  The
handler only reads the globals (there is no `global` statement and no
assignment to them in its body), so the state passes through unchanged;
the returned state makes that frame condition explicit.  Every exception
of the `try` block is converted to `HTTPException(500, str(e))`:
subscripting a `None` global raises TypeError, an empty id selection
raises IndexError at `.index[0]`, and a row index outside `cosine_sim`
(possible only in a mixed, partially rebuilt state) raises IndexError.
The checks happen in source order: line 103 (movies_df, then the id
lookup), then line 106 (cosine_sim). -/
noncomputable def recommend (st : AppState) (movie_id : Int) :
    Except HErr (List RecOut) × AppState :=
  (match st.movies_df with
   | none => Except.error ⟨500, noneSubscriptMsg⟩
   | some df =>
     match matchingIdx df movie_id with
     | none => Except.error ⟨500, emptyIndexMsg⟩
     | some idx =>
       match st.cosine_sim with
       | none => Except.error ⟨500, noneSubscriptMsg⟩
       | some M =>
         match M.get? idx with
         | none => Except.error ⟨500, rowOutMsg⟩
         | some row => recommendCore df row,
   st)

/-- The HTTP status code a query outcome surfaces, if it failed. -/
def statusOf {α : Type} : Except HErr α → Option Nat
  | Except.error e => some e.status
  | Except.ok _ => none

/-- The ranking order of the sorted candidate list: strictly greater score
first, ties in ascending original index. -/
def rankRel (a b : Nat × ℝ) : Prop := b.2 < a.2 ∨ (a.2 = b.2 ∧ a.1 < b.1)

/-! ## Example corpora used for concrete evaluations -/

/-- Two distinct movies with identical overview and title — identical
combined feature text, hence identical TF-IDF rows. -/
def exDup : List Movie :=
  [⟨1, some ("Alpha"), some ("hero saves world"), some ("/a.jpg")⟩,
   ⟨2, some ("Alpha"), some ("hero saves world"), some ("/b.jpg")⟩]

/-- Two movies with disjoint content vocabularies. -/
def exTwo : List Movie :=
  [⟨1, some ("Alpha"), some ("hero saves world"), some ("/a.jpg")⟩,
   ⟨2, some ("Beta"), some ("chef bakes bread"), some ("/b.jpg")⟩]

/-- A corpus of size one with real content words. -/
def exSingle : List Movie :=
  [⟨7, some ("Alpha"), some ("hero saves world"), some ("/a.jpg")⟩]

/-- A corpus of size one whose only feature text consists of stop words. -/
def exStopSingle : List Movie :=
  [⟨7, some ("The"), some ("the"), some ("/a.jpg")⟩]

/-- A two-movie corpus whose second movie has a stop-words-only feature
text (an all-zero TF-IDF row). -/
def exStop : List Movie :=
  [⟨1, some ("Alpha"), some ("hero saves world"), some ("/a.jpg")⟩,
   ⟨2, some ("The"), some ("the"), some ("/b.jpg")⟩]

/-- A corpus whose second record lacks the `overview` field (NaN cell). -/
def exMissing : List Movie :=
  [⟨1, some ("Alpha"), some ("hero saves world"), some ("/a.jpg")⟩,
   ⟨2, some ("Beta"), none, some ("/b.jpg")⟩]

/-- A corpus all of whose records lack the `overview` field, so
`pd.DataFrame` creates no `overview` column at all and line 65 raises
`KeyError`. -/
def exNoOverview : List Movie :=
  [⟨9, some ("Beta"), none, some ("/b.jpg")⟩]

/-- The cache after the startup build over `exDup`. -/
noncomputable def stDup : AppState := (prepare (Except.ok exDup) initialState).1

/-- The cache after the startup build over `exTwo`. -/
noncomputable def stTwo : AppState := (prepare (Except.ok exTwo) initialState).1

/-- The cache after the startup build over `exStop`. -/
noncomputable def stStop : AppState := (prepare (Except.ok exStop) initialState).1

/-- The combined feature text shared by both records of `exDup`. -/
def dD : String := "hero saves world" ++ " " ++ "Alpha"

/-- The value every entry of the `exDup` similarity matrix reduces to: the
cosine of the (identical) normalised TF-IDF row with itself. -/
noncomputable def eDup : ℝ :=
  dot (l2normalize (l2normalize (rawRow [dD, dD] dD)))
      (l2normalize (l2normalize (rawRow [dD, dD] dD)))

/-! ## Helper lemmas: dot products and normalisation -/

theorem dot_nil_left (v : List ℝ) : dot [] v = 0 := rfl

theorem dot_cons_cons (a b : ℝ) (u v : List ℝ) :
    dot (a :: u) (b :: v) = a * b + dot u v := by
  simp [dot]

theorem dot_comm (u v : List ℝ) : dot u v = dot v u := by
  unfold dot
  rw [List.zipWith_comm_of_comm]
  exact fun a b => mul_comm a b

theorem dot_self_nonneg (u : List ℝ) : 0 ≤ dot u u := by
  induction u with
  | nil => simp [dot]
  | cons a u ih =>
    rw [dot_cons_cons]
    exact add_nonneg (mul_self_nonneg a) ih

theorem dot_self_pos (u : List ℝ) (x : ℝ) (hx : x ∈ u) (hx0 : x ≠ 0) :
    0 < dot u u := by
  induction u with
  | nil => cases hx
  | cons a u ih =>
    rw [dot_cons_cons]
    rcases List.mem_cons.mp hx with h | h
    · subst h
      exact add_pos_of_pos_of_nonneg (mul_self_pos.mpr hx0) (dot_self_nonneg u)
    · exact add_pos_of_nonneg_of_pos (mul_self_nonneg a) (ih h)

theorem dot_self_zero (u : List ℝ) (h : ∀ x ∈ u, x = 0) : dot u u = 0 := by
  induction u with
  | nil => rfl
  | cons a u ih =>
    rw [dot_cons_cons, h a (List.mem_cons_self a u),
      ih (fun x hx => h x (List.mem_cons_of_mem a hx))]
    ring

theorem dot_map_div (u v : List ℝ) (c : ℝ) :
    dot (u.map (fun a => a / c)) (v.map (fun a => a / c)) = dot u v / (c * c) := by
  induction u generalizing v with
  | nil => simp [dot]
  | cons a u ih =>
    cases v with
    | nil => simp [dot]
    | cons b v =>
      simp only [List.map_cons, dot_cons_cons, ih, div_mul_div_comm]
      rw [div_add_div_same]

theorem l2norm_ne_zero (u : List ℝ) (h : dot u u ≠ 0) : l2norm u ≠ 0 := by
  have hpos : 0 < dot u u := lt_of_le_of_ne (dot_self_nonneg u) (Ne.symm h)
  exact ne_of_gt (Real.sqrt_pos.mpr hpos)

theorem dot_l2normalize_self (u : List ℝ) (h : dot u u ≠ 0) :
    dot (l2normalize u) (l2normalize u) = 1 := by
  have hn : l2norm u ≠ 0 := l2norm_ne_zero u h
  unfold l2normalize
  rw [if_neg hn, dot_map_div]
  have : l2norm u * l2norm u = dot u u := Real.mul_self_sqrt (dot_self_nonneg u)
  rw [this, div_self h]

theorem dot_l2normalize_twice_self (u : List ℝ) (h : dot u u ≠ 0) :
    dot (l2normalize (l2normalize u)) (l2normalize (l2normalize u)) = 1 := by
  apply dot_l2normalize_self
  rw [dot_l2normalize_self u h]
  exact one_ne_zero

theorem l2normalize_zero (u : List ℝ) (h : ∀ x ∈ u, x = 0) :
    l2normalize u = u := by
  unfold l2normalize
  rw [if_pos]
  unfold l2norm
  rw [dot_self_zero u h, Real.sqrt_zero]

/-! ## Helper lemmas: the TF-IDF weights -/

theorem docFreq_le (docs : List String) (t : String) :
    docFreq docs t ≤ docs.length :=
  List.length_filter_le _ _

theorem idf_pos (docs : List String) (t : String) : 0 < idf docs t := by
  unfold idf
  have hd : (0 : ℝ) < 1 + (docFreq docs t : ℝ) := by positivity
  have h1 : (1 : ℝ) ≤ (1 + docs.length) / (1 + docFreq docs t) := by
    rw [le_div_iff₀ hd, one_mul]
    have := docFreq_le docs t
    have : (docFreq docs t : ℝ) ≤ (docs.length : ℝ) := by exact_mod_cast this
    linarith
  have := Real.log_nonneg h1
  linarith

theorem rawRow_all_zero (docs : List String) (d : String)
    (h : analyze d = []) : ∀ x ∈ rawRow docs d, x = 0 := by
  intro x hx
  rcases List.mem_map.mp hx with ⟨t, _, rfl⟩
  unfold tfCount
  rw [h]
  simp

theorem rawRow_dot_ne_zero (docs : List String) (d : String)
    (hd : d ∈ docs) (h : analyze d ≠ []) :
    dot (rawRow docs d) (rawRow docs d) ≠ 0 := by
  rcases List.exists_mem_of_ne_nil _ h with ⟨t, ht⟩
  have htv : t ∈ vocab docs := by
    unfold vocab
    rw [List.mem_dedup, List.mem_flatten]
    exact ⟨analyze d, List.mem_map_of_mem analyze hd, ht⟩
  have hx : ((tfCount d t : ℝ) * idf docs t) ∈ rawRow docs d :=
    List.mem_map_of_mem _ htv
  have htf : 0 < tfCount d t := List.count_pos_iff.mpr ht
  have hx0 : (tfCount d t : ℝ) * idf docs t ≠ 0 := by
    have : (0 : ℝ) < (tfCount d t : ℝ) := by exact_mod_cast htf
    exact ne_of_gt (mul_pos this (idf_pos docs t))
  exact ne_of_gt (dot_self_pos _ _ hx hx0)

/-! ## Helper lemmas: entries of the built similarity matrix -/

theorem getD_map_of_get? {α β : Type} (f : α → β) (l : List α) (i : Nat)
    (a : α) (d : β) (h : l.get? i = some a) : (l.map f).getD i d = f a := by
  rw [List.getD_eq_getElem?_getD, List.getElem?_map, ← List.get?_eq_getElem?, h]
  rfl

theorem getD_of_get?_none {α : Type} (l : List α) (i : Nat) (d : α)
    (h : l.get? i = none) : l.getD i d = d := by
  rw [List.getD_eq_getElem?_getD, ← List.get?_eq_getElem?, h]
  rfl

theorem tfidfMatrix_get (docs : List String) (i : Nat) (hi : i < docs.length) :
    (tfidfMatrix docs).get? i = some (l2normalize (rawRow docs (docs.get ⟨i, hi⟩))) := by
  unfold tfidfMatrix
  rw [List.get?_eq_getElem?, List.getElem?_map, ← List.get?_eq_getElem?,
    List.get?_eq_get hi]
  rfl

theorem simEntry_eq_dot (docs : List String) (i j : Nat)
    (hi : i < docs.length) (hj : j < docs.length) :
    simEntry (cosineSimilarity (tfidfMatrix docs)) i j =
      dot (l2normalize (l2normalize (rawRow docs (docs.get ⟨i, hi⟩))))
          (l2normalize (l2normalize (rawRow docs (docs.get ⟨j, hj⟩)))) := by
  have h2 : (cosineSimilarity (tfidfMatrix docs)).getD i [] =
      (tfidfMatrix docs).map (fun rj =>
        dot (l2normalize (l2normalize (rawRow docs (docs.get ⟨i, hi⟩))))
          (l2normalize rj)) := by
    unfold cosineSimilarity
    exact getD_map_of_get? _ _ _ _ _ (tfidfMatrix_get docs i hi)
  have h3 : simEntry (cosineSimilarity (tfidfMatrix docs)) i j =
      ((cosineSimilarity (tfidfMatrix docs)).getD i []).getD j 0 := rfl
  rw [h3, h2, getD_map_of_get? _ _ _ _ _ (tfidfMatrix_get docs j hj)]

theorem simMatrix_length (docs : List String) :
    (cosineSimilarity (tfidfMatrix docs)).length = docs.length := by
  unfold cosineSimilarity tfidfMatrix
  simp

theorem simEntry_row_oob (docs : List String) (i j : Nat)
    (hi : docs.length ≤ i) :
    simEntry (cosineSimilarity (tfidfMatrix docs)) i j = 0 := by
  have hrow : (cosineSimilarity (tfidfMatrix docs)).get? i = none :=
    List.get?_eq_none.mpr (by rw [simMatrix_length]; exact hi)
  have h3 : simEntry (cosineSimilarity (tfidfMatrix docs)) i j =
      ((cosineSimilarity (tfidfMatrix docs)).getD i []).getD j 0 := rfl
  rw [h3, getD_of_get?_none _ _ _ hrow]
  rfl

theorem simEntry_col_oob (docs : List String) (i j : Nat)
    (hj : docs.length ≤ j) :
    simEntry (cosineSimilarity (tfidfMatrix docs)) i j = 0 := by
  rcases lt_or_ge i docs.length with hi | hi
  · have h2 : (cosineSimilarity (tfidfMatrix docs)).getD i [] =
        (tfidfMatrix docs).map (fun rj =>
          dot (l2normalize (l2normalize (rawRow docs (docs.get ⟨i, hi⟩))))
            (l2normalize rj)) := by
      unfold cosineSimilarity
      exact getD_map_of_get? _ _ _ _ _ (tfidfMatrix_get docs i hi)
    have h3 : simEntry (cosineSimilarity (tfidfMatrix docs)) i j =
        ((cosineSimilarity (tfidfMatrix docs)).getD i []).getD j 0 := rfl
    have hcol : ((tfidfMatrix docs).map (fun rj =>
        dot (l2normalize (l2normalize (rawRow docs (docs.get ⟨i, hi⟩))))
          (l2normalize rj))).get? j = none := by
      apply List.get?_eq_none.mpr
      rw [List.length_map]
      unfold tfidfMatrix
      rw [List.length_map]
      exact hj
    rw [h3, h2, getD_of_get?_none _ _ _ hcol]
  · exact simEntry_row_oob docs i j hi

theorem simEntry_symm (docs : List String) (i j : Nat) :
    simEntry (cosineSimilarity (tfidfMatrix docs)) i j =
      simEntry (cosineSimilarity (tfidfMatrix docs)) j i := by
  rcases lt_or_ge i docs.length with hi | hi
  · rcases lt_or_ge j docs.length with hj | hj
    · rw [simEntry_eq_dot docs i j hi hj, simEntry_eq_dot docs j i hj hi, dot_comm]
    · rw [simEntry_col_oob docs i j hj, simEntry_row_oob docs j i hj]
  · rcases lt_or_ge j docs.length with hj | hj
    · rw [simEntry_row_oob docs i j hi, simEntry_col_oob docs j i hi]
    · rw [simEntry_row_oob docs i j hi, simEntry_row_oob docs j i hj]

theorem simEntry_diag_one (docs : List String) (i : Nat) (hi : i < docs.length)
    (h : analyze (docs.get ⟨i, hi⟩) ≠ []) :
    simEntry (cosineSimilarity (tfidfMatrix docs)) i i = 1 := by
  rw [simEntry_eq_dot docs i i hi hi]
  exact dot_l2normalize_twice_self _
    (rawRow_dot_ne_zero docs _ (docs.get_mem _ _) h)

theorem simEntry_diag_zero (docs : List String) (i : Nat) (hi : i < docs.length)
    (h : analyze (docs.get ⟨i, hi⟩) = []) :
    simEntry (cosineSimilarity (tfidfMatrix docs)) i i = 0 := by
  rw [simEntry_eq_dot docs i i hi hi]
  have hz := rawRow_all_zero docs _ h
  rw [l2normalize_zero _ hz, l2normalize_zero _ hz]
  exact dot_self_zero _ hz

/-! ## Helper lemmas: the stable descending sort of line 109 -/

theorem insertDesc_length (x : Nat × ℝ) (l : List (Nat × ℝ)) :
    (insertDesc x l).length = l.length + 1 := by
  induction l with
  | nil => rfl
  | cons y ys ih =>
    unfold insertDesc
    by_cases h : x.2 < y.2
    · rw [if_pos h]
      simp [ih]
    · rw [if_neg h]
      simp

theorem sortDesc_length (l : List (Nat × ℝ)) :
    (sortDesc l).length = l.length := by
  induction l with
  | nil => rfl
  | cons x xs ih =>
    unfold sortDesc
    rw [insertDesc_length, ih, List.length_cons]

theorem mem_insertDesc (a x : Nat × ℝ) (l : List (Nat × ℝ)) :
    a ∈ insertDesc x l ↔ a = x ∨ a ∈ l := by
  induction l with
  | nil => simp [insertDesc]
  | cons y ys ih =>
    unfold insertDesc
    by_cases h : x.2 < y.2
    · rw [if_pos h]
      simp only [List.mem_cons, ih]
      tauto
    · rw [if_neg h]
      simp only [List.mem_cons]

theorem mem_sortDesc (a : Nat × ℝ) (l : List (Nat × ℝ)) :
    a ∈ sortDesc l ↔ a ∈ l := by
  induction l with
  | nil => simp [sortDesc]
  | cons x xs ih =>
    unfold sortDesc
    rw [mem_insertDesc, ih, List.mem_cons]

theorem insertDesc_pairwise (x : Nat × ℝ) (l : List (Nat × ℝ))
    (hl : l.Pairwise rankRel) (hx : ∀ y ∈ l, x.1 < y.1) :
    (insertDesc x l).Pairwise rankRel := by
  induction l with
  | nil => simp [insertDesc, List.pairwise_singleton]
  | cons y ys ih =>
    rcases List.pairwise_cons.mp hl with ⟨hy, hys⟩
    unfold insertDesc
    by_cases h : x.2 < y.2
    · rw [if_pos h]
      apply List.pairwise_cons.mpr
      constructor
      · intro z hz
        rcases (mem_insertDesc z x ys).mp hz with rfl | hzys
        · exact Or.inl h
        · exact hy z hzys
      · exact ih hys (fun z hz => hx z (List.mem_cons_of_mem y hz))
    · rw [if_neg h]
      have hyx : y.2 ≤ x.2 := le_of_not_lt h
      apply List.pairwise_cons.mpr
      constructor
      · intro z hz
        rcases List.mem_cons.mp hz with rfl | hzys
        · rcases lt_or_eq_of_le hyx with hlt | heq
          · exact Or.inl hlt
          · exact Or.inr ⟨heq.symm, hx z (List.mem_cons_self _ _)⟩
        · have hyz := hy z hzys
          have hzy : z.2 ≤ y.2 := by
            rcases hyz with hlt | ⟨heq, _⟩
            · exact le_of_lt hlt
            · exact le_of_eq heq.symm
          rcases lt_or_eq_of_le (le_trans hzy hyx) with hlt | heq
          · exact Or.inl hlt
          · exact Or.inr ⟨heq.symm, hx z (List.mem_cons_of_mem y hzys)⟩
      · exact hl

theorem sortDesc_pairwise (l : List (Nat × ℝ))
    (h : l.Pairwise (fun a b => a.1 < b.1)) :
    (sortDesc l).Pairwise rankRel := by
  induction l with
  | nil => exact List.Pairwise.nil
  | cons x xs ih =>
    rcases List.pairwise_cons.mp h with ⟨hx, hxs⟩
    unfold sortDesc
    apply insertDesc_pairwise
    · exact ih hxs
    · intro y hy
      exact hx y ((mem_sortDesc y xs).mp hy)

theorem enumFrom_pairwise_fst {α : Type} (n : Nat) (l : List α) :
    (l.enumFrom n).Pairwise (fun a b => a.1 < b.1) := by
  induction l generalizing n with
  | nil => exact List.Pairwise.nil
  | cons x xs ih =>
    apply List.pairwise_cons.mpr
    constructor
    · intro p hp
      have := List.le_fst_of_mem_enumFrom hp
      omega
    · exact ih (n + 1)

theorem enum_pairwise_fst {α : Type} (l : List α) :
    l.enum.Pairwise (fun a b => a.1 < b.1) :=
  enumFrom_pairwise_fst 0 l

/-! ## Helper lemmas: the id lookup of line 103 -/

theorem matchingIdx_lt (df : List Movie) (movie_id : Int) (i : Nat)
    (h : matchingIdx df movie_id = some i) : i < df.length := by
  unfold matchingIdx at h
  have hmem : i ∈ (df.enum.filter (fun p => p.2.id == movie_id)).map
      (fun p => p.1) := List.mem_of_mem_head? h
  rcases List.mem_map.mp hmem with ⟨p, hp, rfl⟩
  have hpe : p ∈ df.enum := List.mem_of_mem_filter hp
  exact List.fst_lt_of_mem_enum hpe

theorem matchingIdx_none (df : List Movie) (movie_id : Int)
    (h : ∀ m ∈ df, m.id ≠ movie_id) : matchingIdx df movie_id = none := by
  unfold matchingIdx
  have : df.enum.filter (fun p => p.2.id == movie_id) = [] := by
    apply List.filter_eq_nil_iff.mpr
    intro p hp
    have := h p.2 (List.snd_mem_of_mem_enum hp)
    simp [this]
  rw [this]
  rfl

theorem mem_enumFrom_of_mem {α : Type} (a : α) (l : List α) (n : Nat)
    (h : a ∈ l) : ∃ i, (i, a) ∈ l.enumFrom n := by
  induction l generalizing n with
  | nil => cases h
  | cons x xs ih =>
    rcases List.mem_cons.mp h with rfl | hxs
    · exact ⟨n, List.mem_cons_self _ _⟩
    · rcases ih (n + 1) hxs with ⟨i, hi⟩
      exact ⟨i, List.mem_cons_of_mem _ hi⟩

theorem matchingIdx_isSome (df : List Movie) (movie_id : Int)
    (h : ∃ m ∈ df, m.id = movie_id) :
    ∃ i, matchingIdx df movie_id = some i := by
  rcases h with ⟨m, hm, hid⟩
  rcases mem_enumFrom_of_mem m df 0 hm with ⟨i, hi⟩
  have hmem : (i, m) ∈ df.enum.filter (fun p => p.2.id == movie_id) := by
    apply List.mem_filter.mpr
    exact ⟨hi, by simp [hid]⟩
  unfold matchingIdx
  cases hh : ((df.enum.filter (fun p => p.2.id == movie_id)).map
      (fun p => p.1)).head? with
  | some j => exact ⟨j, rfl⟩
  | none =>
    exfalso
    have : (df.enum.filter (fun p => p.2.id == movie_id)).map
        (fun p => p.1) = [] := List.head?_eq_none_iff.mp hh
    rw [List.map_eq_nil_iff] at this
    rw [this] at hmem
    cases hmem

/-! ## Helper lemmas: the shape of the state after a build -/

theorem combineStep_ok_feats (movies : List Movie) (feats : List (Option String))
    (h : combineStep movies = Except.ok feats) : feats = movies.map featureOf := by
  unfold combineStep at h
  split_ifs at h
  exact (Except.ok.injEq _ _).mp h |>.symm

theorem tfidfStep_ok_docs (feats : List (Option String)) (docs : List String)
    (h : tfidfStep feats = Except.ok docs) : docs = docsOf feats := by
  unfold tfidfStep at h
  split_ifs at h
  exact (Except.ok.injEq _ _).mp h |>.symm

theorem prepare_ok_state (movies : List Movie) (st : AppState)
    (feats : List (Option String)) (docs : List String)
    (hc : combineStep movies = Except.ok feats)
    (ht : tfidfStep feats = Except.ok docs) :
    prepare (Except.ok movies) st =
      (⟨some movies, some feats, some (tfidfMatrix docs),
        some (cosineSimilarity (tfidfMatrix docs))⟩, Except.ok ()) := by
  show prepareOk movies st = _
  unfold prepareOk
  rw [hc]
  dsimp only
  rw [ht]

theorem prepare_ok_inv (movies : List Movie) (st : AppState)
    (h : (prepare (Except.ok movies) st).2 = Except.ok ()) :
    ∃ feats docs, combineStep movies = Except.ok feats ∧
      tfidfStep feats = Except.ok docs := by
  replace h : (prepareOk movies st).2 = Except.ok () := h
  unfold prepareOk at h
  cases hc : combineStep movies with
  | error e => rw [hc] at h; cases h
  | ok feats =>
    rw [hc] at h
    dsimp only at h
    cases ht : tfidfStep feats with
    | error e => rw [ht] at h; cases h
    | ok docs => exact ⟨feats, docs, rfl, ht⟩

theorem prepare_fetch_error (st : AppState) (e : String) :
    prepare (Except.error e) st = (st, Except.error e) := rfl

theorem prepare_combine_error (movies : List Movie) (st : AppState) (e : String)
    (hc : combineStep movies = Except.error e) :
    prepare (Except.ok movies) st =
      ({ st with movies_df := some movies, combined_features := none },
       Except.error e) := by
  show prepareOk movies st = _
  unfold prepareOk
  rw [hc]

theorem prepare_tfidf_error (movies : List Movie) (st : AppState)
    (feats : List (Option String)) (e : String)
    (hc : combineStep movies = Except.ok feats)
    (ht : tfidfStep feats = Except.error e) :
    prepare (Except.ok movies) st =
      ({ st with movies_df := some movies, combined_features := some feats },
       Except.error e) := by
  show prepareOk movies st = _
  unfold prepareOk
  rw [hc]
  dsimp only
  rw [ht]

theorem combineStep_ok_of (movies : List Movie)
    (h1 : movies.all (fun m => m.overview.isNone) = false)
    (h2 : movies.all (fun m => m.title.isNone) = false) :
    combineStep movies = Except.ok (movies.map featureOf) := by
  unfold combineStep
  rw [h1, h2]
  rfl

theorem tfidfStep_ok_of (feats : List (Option String))
    (h1 : feats.any (fun f => f.isNone) = false)
    (h2 : (vocab (docsOf feats)).isEmpty = false) :
    tfidfStep feats = Except.ok (docsOf feats) := by
  unfold tfidfStep
  rw [h1, h2]
  rfl

theorem vocab_isEmpty_false (docs : List String) (d : String) (hd : d ∈ docs)
    (ha : analyze d ≠ []) : (vocab docs).isEmpty = false := by
  obtain ⟨t0, ht0⟩ := List.exists_mem_of_ne_nil _ ha
  have hv : t0 ∈ vocab docs := by
    unfold vocab
    rw [List.mem_dedup, List.mem_flatten]
    exact ⟨analyze d, List.mem_map_of_mem analyze hd, ht0⟩
  cases h : vocab docs with
  | nil => rw [h] at hv; cases hv
  | cons a l => rfl

/-! ## The claims -/

/-- C2, counterexample.  The claim requires an id absent from the corpus to
fail with a condition distinguishable as NotFound; in the code every
exception of the handler surfaces as the one generic status 500
(`HTTPException(status_code=500, detail=str(e))`), the same status that an
entirely different failure class (querying before the build) receives, so
nothing distinguishes a not-found failure. -/
theorem C2_notfound_indistinguishable_cex :
    statusOf (recommend stTwo 999).1 = some 500 ∧
    statusOf (recommend initialState 999).1 = some 500 :=
  ⟨rfl, rfl⟩

/-- C2 (amended): querying an id absent from the current corpus fails with
the generic 500 failure (wrapping the IndexError of `.index[0]` at line
103), not a distinguishable NotFound, and the cached state is unchanged by
the failed query. -/
theorem C2_absent_id_generic_500 (st : AppState) (df : List Movie)
    (movie_id : Int) (hdf : st.movies_df = some df)
    (habs : ∀ m ∈ df, m.id ≠ movie_id) :
    recommend st movie_id = (Except.error ⟨500, emptyIndexMsg⟩, st) := by
  unfold recommend
  rw [hdf]
  dsimp only
  rw [matchingIdx_none df movie_id habs]

/-- C2, witness: the amended theorem applied to the built `exTwo` index and
the absent id 999. -/
theorem C2_absent_id_generic_500_witness :
    recommend stTwo 999 = (Except.error ⟨500, emptyIndexMsg⟩, stTwo) :=
  C2_absent_id_generic_500 stTwo exTwo 999 rfl (by decide)

/-- C3, counterexample.  The claim requires a failed build to leave all
three cached pieces exactly as before.  Starting from the successfully
built `exTwo` index, a rebuild over a corpus whose records all lack
`overview` fails at the feature-combination step, yet leaves the new
corpus in `movies_df` while `cosine_sim` still holds the old `exTwo`
matrix: a mixed state. -/
theorem C3_mixed_state_cex :
    (prepare (Except.ok exTwo) initialState).2 = Except.ok () ∧
    (prepare (Except.ok exNoOverview) stTwo).2 =
      Except.error ("KeyError: overview") ∧
    (prepare (Except.ok exNoOverview) stTwo).1.movies_df = some exNoOverview ∧
    (prepare (Except.ok exNoOverview) stTwo).1.movies_df ≠ stTwo.movies_df ∧
    (prepare (Except.ok exNoOverview) stTwo).1.cosine_sim = stTwo.cosine_sim ∧
    stTwo.cosine_sim.isSome = true := by
  refine ⟨rfl, rfl, rfl, ?_, rfl, rfl⟩
  intro h
  have h2 : some exNoOverview = some exTwo := h
  cases h2

/-- C3 (amended): only a failure of the fetch step leaves all three cached
pieces unchanged; a failure at feature combination or at vectorization
happens after line 62 has already rebound `movies_df`, leaving the new
corpus (and, for a vectorization failure, the new features) paired with
the old matrices. -/
theorem C3_amended :
    (∀ (st : AppState) (e : String),
      prepare (Except.error e) st = (st, Except.error e)) ∧
    (∀ (st : AppState) (movies : List Movie) (e : String),
      combineStep movies = Except.error e →
      prepare (Except.ok movies) st =
        ({ st with movies_df := some movies, combined_features := none },
         Except.error e)) ∧
    (∀ (st : AppState) (movies : List Movie) (feats : List (Option String))
      (e : String),
      combineStep movies = Except.ok feats → tfidfStep feats = Except.error e →
      prepare (Except.ok movies) st =
        ({ st with movies_df := some movies, combined_features := some feats },
         Except.error e)) :=
  ⟨fun st e => prepare_fetch_error st e,
   fun st movies e hc => prepare_combine_error movies st e hc,
   fun st movies feats e hc ht => prepare_tfidf_error movies st feats e hc ht⟩

/-- C3, witness: the three amended cases at concrete inputs — a fetch
failure, a KeyError at feature combination, and a NaN-document failure at
vectorization, each starting from the built `exTwo` state. -/
theorem C3_amended_witness :
    prepare (Except.error ("UpstreamUnavailable")) stTwo =
      (stTwo, Except.error ("UpstreamUnavailable")) ∧
    prepare (Except.ok exNoOverview) stTwo =
      ({ stTwo with movies_df := some exNoOverview, combined_features := none },
       Except.error ("KeyError: overview")) ∧
    prepare (Except.ok exMissing) stTwo =
      ({ stTwo with
          movies_df := some exMissing
          combined_features := some (exMissing.map featureOf) },
       Except.error ("ValueError: np.nan is an invalid document")) :=
  ⟨C3_amended.1 stTwo _, C3_amended.2.1 stTwo exNoOverview _ rfl,
   C3_amended.2.2 stTwo exMissing (exMissing.map featureOf) _ rfl rfl⟩

/-- C4, counterexample.  The claim requires a missing `overview` to be
treated as the empty string with the build completing.  In the code the
pandas string addition of line 65 propagates the NaN instead, and the
build then fails at vectorization on the NaN document. -/
theorem C4_missing_field_fails_cex :
    combineStep exMissing =
      Except.ok [some ("hero saves world" ++ " " ++ "Alpha"), none] ∧
    (prepare (Except.ok exMissing) initialState).2 =
      Except.error ("ValueError: np.nan is an invalid document") :=
  ⟨rfl, rfl⟩

/-- C4 (amended): when every record has both `overview` and `title`
present, the feature-combination step succeeds and each FeatureText equals
overview ++ " " ++ title; a record with a missing field instead receives a
NaN feature and the build fails at vectorization (no empty-string
default). -/
theorem C4_amended (movies : List Movie) (hne : movies ≠ [])
    (hall : ∀ m ∈ movies, m.overview.isSome ∧ m.title.isSome) :
    combineStep movies =
      Except.ok (movies.map (fun m =>
        some ((m.overview.getD "") ++ " " ++ (m.title.getD "")))) := by
  obtain ⟨m0, hm0⟩ := List.exists_mem_of_ne_nil movies hne
  unfold combineStep
  have h1 : ¬(movies.all (fun m => m.overview.isNone) = true) := by
    rw [List.all_eq_true]
    intro hcon
    have hs := (hall m0 hm0).1
    have hn := hcon m0 hm0
    cases ho : m0.overview with
    | none => rw [ho] at hs; cases hs
    | some o => rw [ho] at hn; cases hn
  have h2 : ¬(movies.all (fun m => m.title.isNone) = true) := by
    rw [List.all_eq_true]
    intro hcon
    have hs := (hall m0 hm0).2
    have hn := hcon m0 hm0
    cases ho : m0.title with
    | none => rw [ho] at hs; cases hs
    | some t => rw [ho] at hn; cases hn
  rw [if_neg h1, if_neg h2]
  congr 1
  apply List.map_congr_left
  intro m hm
  obtain ⟨o, ho⟩ := Option.isSome_iff_exists.mp (hall m hm).1
  obtain ⟨t, htl⟩ := Option.isSome_iff_exists.mp (hall m hm).2
  unfold featureOf
  rw [ho, htl]
  rfl

/-- C4, witness: the amended theorem applied to `exTwo`, whose records all
carry both fields. -/
theorem C4_amended_witness :
    combineStep exTwo =
      Except.ok (exTwo.map (fun m =>
        some ((m.overview.getD "") ++ " " ++ (m.title.getD "")))) :=
  C4_amended exTwo (by decide) (by decide)

/-- C7, counterexample.  The claim requires a query before the build to
fail with a condition distinguishable as FailedPrecondition (index not
ready); in the code it surfaces as the same generic status 500 that a
built-index unknown-id failure receives, so nothing marks it as
index-not-ready. -/
theorem C7_precondition_indistinguishable_cex :
    statusOf (recommend initialState 7).1 = some 500 ∧
    statusOf (recommend stTwo 777).1 = some 500 :=
  ⟨rfl, rfl⟩

/-- C7 (amended): a query in any state where the index has not been built
(`movies_df` is still `None`) fails immediately — it does not block — but
with the generic 500 failure wrapping the TypeError of line 103, not a
distinguishable FailedPrecondition; the state is unchanged. -/
theorem C7_unbuilt_generic_500 (st : AppState) (movie_id : Int)
    (h : st.movies_df = none) :
    recommend st movie_id = (Except.error ⟨500, noneSubscriptMsg⟩, st) := by
  unfold recommend
  rw [h]

/-- C7, witness: the amended theorem at the startup state. -/
theorem C7_unbuilt_generic_500_witness :
    recommend initialState 1 = (Except.error ⟨500, noneSubscriptMsg⟩, initialState) :=
  C7_unbuilt_generic_500 initialState 1 rfl

/-- C8: the ranked candidate list built by lines 106-109 — the stable
descending sort of the enumerated similarity row — is ordered by `rankRel`
at every pair of positions: strictly descending score, and equal scores in
ascending original row index.  This holds for the enumeration of any row
of any matrix. -/
theorem C8_rank_order (row : List ℝ) :
    (sortDesc row.enum).Pairwise rankRel :=
  sortDesc_pairwise row.enum (enum_pairwise_fst row)

/-- C10: the query handler is read-only and deterministic: the state after
any query is the very state before it, an immediately repeated query
returns the same result, and the result depends only on the two globals
the handler reads (`movies_df` and `cosine_sim`). -/
theorem C10_query_readonly (st : AppState) (movie_id : Int) :
    (recommend st movie_id).2 = st ∧
    (recommend ((recommend st movie_id).2) movie_id).1 =
      (recommend st movie_id).1 ∧
    (∀ st2 : AppState, st2.movies_df = st.movies_df →
      st2.cosine_sim = st.cosine_sim →
      (recommend st2 movie_id).1 = (recommend st movie_id).1) := by
  refine ⟨rfl, rfl, ?_⟩
  intro st2 h1 h2
  unfold recommend
  dsimp only
  rw [h1, h2]

/-- C10, witness: the frame and read-set facts at the built `exTwo` state
(the third conjunct instantiated at a state differing in the unread
fields). -/
theorem C10_query_readonly_witness :
    (recommend stTwo 1).2 = stTwo ∧
    (recommend (⟨stTwo.movies_df, none, none, stTwo.cosine_sim⟩ : AppState) 1).1 =
      (recommend stTwo 1).1 :=
  ⟨(C10_query_readonly stTwo 1).1,
   (C10_query_readonly stTwo 1).2.2
     ⟨stTwo.movies_df, none, none, stTwo.cosine_sim⟩ rfl rfl⟩

/-- C5, counterexample.  The claim asserts diagonal entries are 1.0 for
every corpus of size at least 2, including one with a stop-words-only
feature text.  Over `exStop` the build succeeds, but the second record's
feature text "the The" analyses to no tokens, its TF-IDF row is all
zeros, and `cosine_similarity` leaves the zero row as zero, so the
diagonal entry is 0, not 1. -/
theorem C5_diag_zero_cex :
    (prepare (Except.ok exStop) initialState).2 = Except.ok () ∧
    stStop.cosine_sim =
      some (cosineSimilarity (tfidfMatrix (docsOf (exStop.map featureOf)))) ∧
    simEntry (cosineSimilarity (tfidfMatrix (docsOf (exStop.map featureOf)))) 1 1
      = 0 ∧
    (0 : ℝ) ≠ 1 := by
  refine ⟨rfl, rfl, ?_, by norm_num⟩
  refine simEntry_diag_zero _ 1 (by decide) ?_
  decide

/-- C5 (amended): for every corpus the built similarity matrix is
symmetric, and the diagonal entry of row i is 1 exactly when record i's
analysed feature text has at least one non-stop-word token; a row whose
feature text is empty or stop-words-only has diagonal entry 0 instead. -/
theorem C5_amended (docs : List String) :
    (∀ i j, simEntry (cosineSimilarity (tfidfMatrix docs)) i j =
      simEntry (cosineSimilarity (tfidfMatrix docs)) j i) ∧
    (∀ i (hi : i < docs.length),
      (analyze (docs.get ⟨i, hi⟩) ≠ [] →
        simEntry (cosineSimilarity (tfidfMatrix docs)) i i = 1) ∧
      (analyze (docs.get ⟨i, hi⟩) = [] →
        simEntry (cosineSimilarity (tfidfMatrix docs)) i i = 0)) :=
  ⟨simEntry_symm docs,
   fun i hi => ⟨simEntry_diag_one docs i hi, simEntry_diag_zero docs i hi⟩⟩

/-- C5, witness: the amended theorem at the `exStop` documents — symmetry
of an off-diagonal pair, diagonal 1 at the content row, diagonal 0 at the
stop-words-only row. -/
theorem C5_amended_witness :
    simEntry (cosineSimilarity (tfidfMatrix (docsOf (exStop.map featureOf)))) 0 1
      = simEntry (cosineSimilarity (tfidfMatrix (docsOf (exStop.map featureOf)))) 1 0 ∧
    simEntry (cosineSimilarity (tfidfMatrix (docsOf (exStop.map featureOf)))) 0 0
      = 1 ∧
    simEntry (cosineSimilarity (tfidfMatrix (docsOf (exStop.map featureOf)))) 1 1
      = 0 :=
  ⟨(C5_amended (docsOf (exStop.map featureOf))).1 0 1,
   ((C5_amended (docsOf (exStop.map featureOf))).2 0 (by decide)).1 (by decide),
   ((C5_amended (docsOf (exStop.map featureOf))).2 1 (by decide)).2 (by decide)⟩

/-- C9, counterexample.  The claim asserts every size-1 corpus builds
successfully to [[1.0]].  A single movie whose feature text consists only
of stop words makes `TfidfVectorizer` raise `ValueError: empty
vocabulary`, so the build fails and no similarity matrix exists. -/
theorem C9_single_stopwords_build_fails_cex :
    exStopSingle.length = 1 ∧
    (prepare (Except.ok exStopSingle) initialState).2 =
      Except.error
        ("ValueError: empty vocabulary, perhaps the documents only contain stop words") ∧
    (prepare (Except.ok exStopSingle) initialState).1.cosine_sim = none :=
  ⟨rfl, rfl, rfl⟩

/-- C9 (amended): for a corpus of exactly one record whose overview and
title are present and whose combined feature text has at least one
non-stop-word token, the build succeeds, the similarity matrix is the 1×1
matrix [[1.0]], and recommending the movie's own id returns zero
recommendations without error. -/
theorem C9_single_movie (m : Movie) (o t : String)
    (ho : m.overview = some o) (htl : m.title = some t)
    (ha : analyze (o ++ " " ++ t) ≠ []) :
    (prepare (Except.ok [m]) initialState).2 = Except.ok () ∧
    (prepare (Except.ok [m]) initialState).1.cosine_sim = some [[(1 : ℝ)]] ∧
    (recommend (prepare (Except.ok [m]) initialState).1 m.id).1 =
      Except.ok [] := by
  have hfeat : featureOf m = some (o ++ " " ++ t) := by
    unfold featureOf
    rw [ho, htl]
  have hc : combineStep [m] = Except.ok [featureOf m] :=
    combineStep_ok_of [m] (by simp [ho]) (by simp [htl])
  have hanyf : ([featureOf m].any (fun f => f.isNone)) = false := by
    simp [hfeat]
  have hvocf : (vocab (docsOf [featureOf m])).isEmpty = false := by
    apply vocab_isEmpty_false _ (o ++ " " ++ t) _ ha
    simp [docsOf, hfeat]
  have ht2 : tfidfStep [featureOf m] = Except.ok (docsOf [featureOf m]) :=
    tfidfStep_ok_of [featureOf m] hanyf hvocf
  have hstate := prepare_ok_state [m] initialState [featureOf m]
    (docsOf [featureOf m]) hc ht2
  have hdocs : docsOf [featureOf m] = [o ++ " " ++ t] := by
    simp [docsOf, hfeat]
  have hMone : cosineSimilarity (tfidfMatrix (docsOf [featureOf m])) =
      [[(1 : ℝ)]] := by
    rw [hdocs]
    have he : dot
        (l2normalize (l2normalize (rawRow [o ++ " " ++ t] (o ++ " " ++ t))))
        (l2normalize (l2normalize (rawRow [o ++ " " ++ t] (o ++ " " ++ t)))) =
        1 :=
      dot_l2normalize_twice_self _
        (rawRow_dot_ne_zero [o ++ " " ++ t] (o ++ " " ++ t) (by simp) ha)
    calc cosineSimilarity (tfidfMatrix [o ++ " " ++ t])
        = [[dot
            (l2normalize (l2normalize (rawRow [o ++ " " ++ t] (o ++ " " ++ t))))
            (l2normalize (l2normalize (rawRow [o ++ " " ++ t] (o ++ " " ++ t))))]] :=
          rfl
      _ = [[(1 : ℝ)]] := by rw [he]
  have hst1 : (prepare (Except.ok [m]) initialState).1 =
      ⟨some [m], some [featureOf m],
       some (tfidfMatrix (docsOf [featureOf m])), some [[(1 : ℝ)]]⟩ := by
    rw [hstate, ← hMone]
  have hmi : matchingIdx [m] m.id = some 0 := by
    unfold matchingIdx
    have hbeq : (m.id == m.id) = true := beq_self_eq_true m.id
    have he2 : ([m].enum.filter (fun p => p.2.id == m.id)) = [(0, m)] := by
      show List.filter _ [(0, m)] = [(0, m)]
      simp [List.filter, hbeq]
    rw [he2]
    rfl
  refine ⟨by rw [hstate], by rw [hst1], ?_⟩
  rw [hst1]
  have hrec : (recommend
      (⟨some [m], some [featureOf m],
        some (tfidfMatrix (docsOf [featureOf m])), some [[(1 : ℝ)]]⟩ : AppState)
      m.id).1 = recommendCore [m] [(1 : ℝ)] := by
    unfold recommend
    dsimp only
    rw [hmi]
    rfl
  rw [hrec]
  simp [recommendCore, sortDesc, insertDesc]

/-- C9, witness: the amended theorem at the singleton corpus `exSingle`
(id 7, feature text "hero saves world Alpha"). -/
theorem C9_single_movie_witness :
    (prepare (Except.ok exSingle) initialState).2 = Except.ok () ∧
    (prepare (Except.ok exSingle) initialState).1.cosine_sim =
      some [[(1 : ℝ)]] ∧
    (recommend (prepare (Except.ok exSingle) initialState).1 7).1 =
      Except.ok [] :=
  C9_single_movie ⟨7, some ("Alpha"), some ("hero saves world"), some ("/a.jpg")⟩
    ("hero saves world") ("Alpha") rfl rfl (by decide)

/-- C6: for every corpus whose startup build succeeds and every id present
in it, the query succeeds and returns the rows of `movies_df` at the
recommended indices, projected to id/title/overview/poster_path, and the
list has length exactly min 5 (corpus size - 1): the slice `[1:6]` of the
sorted n-element candidate list. -/
theorem C6_top5 (movies : List Movie) (movie_id : Int)
    (hb : (prepare (Except.ok movies) initialState).2 = Except.ok ())
    (hid : ∃ m ∈ movies, m.id = movie_id) :
    ∃ idxs : List Nat,
      (recommend (prepare (Except.ok movies) initialState).1 movie_id).1 =
        Except.ok (idxs.map (fun j => project (movies.getD j defaultMovie))) ∧
      idxs.length = min 5 (movies.length - 1) ∧
      ∀ j ∈ idxs, j < movies.length := by
  obtain ⟨feats, docs, hc, ht⟩ := prepare_ok_inv movies initialState hb
  have hstate := prepare_ok_state movies initialState feats docs hc ht
  have hfl : feats.length = movies.length := by
    rw [combineStep_ok_feats movies feats hc]
    exact List.length_map _ _
  have hdl : docs.length = movies.length := by
    rw [tfidfStep_ok_docs feats docs ht]
    unfold docsOf
    rw [List.length_map, hfl]
  obtain ⟨idx, hidx⟩ := matchingIdx_isSome movies movie_id hid
  have hlt : idx < movies.length := matchingIdx_lt movies movie_id idx hidx
  have hXl : (tfidfMatrix docs).length = docs.length := List.length_map _ _
  have hxi : ∃ xi, (tfidfMatrix docs).get? idx = some xi := by
    cases hx : (tfidfMatrix docs).get? idx with
    | none =>
      exfalso
      have := List.get?_eq_none.mp hx
      omega
    | some xi => exact ⟨xi, rfl⟩
  obtain ⟨xi, hxi⟩ := hxi
  have hMrow : (cosineSimilarity (tfidfMatrix docs)).get? idx =
      some ((tfidfMatrix docs).map
        (fun rj => dot (l2normalize xi) (l2normalize rj))) := by
    unfold cosineSimilarity
    rw [List.get?_eq_getElem?, List.getElem?_map, ← List.get?_eq_getElem?, hxi]
    rfl
  have hrl : ((tfidfMatrix docs).map
      (fun rj => dot (l2normalize xi) (l2normalize rj))).length =
      movies.length := by
    rw [List.length_map, hXl, hdl]
  have hre : (recommend (prepare (Except.ok movies) initialState).1 movie_id).1 =
      recommendCore movies ((tfidfMatrix docs).map
        (fun rj => dot (l2normalize xi) (l2normalize rj))) := by
    rw [hstate]
    unfold recommend
    dsimp only
    rw [hidx]
    dsimp only
    rw [hMrow]
  rw [hre]
  set row := (tfidfMatrix docs).map
    (fun rj => dot (l2normalize xi) (l2normalize rj)) with hrowdef
  unfold recommendCore
  dsimp only
  set idxs := (((sortDesc row.enum).drop 1).take 5).map (fun p => p.1)
    with hidxs
  have hbound : ∀ j ∈ idxs, j < movies.length := by
    intro j hj
    rcases List.mem_map.mp hj with ⟨p, hp, rfl⟩
    have hp2 : p ∈ (sortDesc row.enum).drop 1 := List.take_subset _ _ hp
    have hp3 : p ∈ sortDesc row.enum := List.drop_subset _ _ hp2
    have hp4 : p ∈ row.enum := (mem_sortDesc p row.enum).mp hp3
    have := List.fst_lt_of_mem_enum hp4
    rw [hrl] at this
    exact this
  have hall : (idxs.all (fun j => decide (j < movies.length))) = true := by
    rw [List.all_eq_true]
    intro j hj
    exact decide_eq_true (hbound j hj)
  rw [if_pos hall]
  refine ⟨idxs, rfl, ?_, hbound⟩
  rw [hidxs, List.length_map, List.length_take, List.length_drop,
    sortDesc_length, List.enum_length, hrl]

/-- C6, witness: the theorem at the built `exTwo` corpus and its first id;
the returned list has length min 5 1 = 1. -/
theorem C6_top5_witness :
    ∃ idxs : List Nat,
      (recommend (prepare (Except.ok exTwo) initialState).1 1).1 =
        Except.ok (idxs.map (fun j => project (exTwo.getD j defaultMovie))) ∧
      idxs.length = min 5 (exTwo.length - 1) ∧
      ∀ j ∈ idxs, j < exTwo.length :=
  C6_top5 exTwo 1 rfl (by decide)

/-- C1: the claim (and the comment at line 111, "excluding the movie
itself") requires the queried movie never to appear in its own
recommendation list, even when another movie ties at similarity 1.0.  At
the corpus `exDup` — two movies with identical feature text — querying id
2 (row 1) returns exactly the queried movie itself: every similarity
entry is 1, the stable sort keeps the tied row 0 first, and the slice
`[1:6]` drops row 0 instead of the self row 1.  The exclusion is by
position, not by identity, so the claim fails on the code. -/
theorem C1_self_recommended_bug :
    matchingIdx exDup 2 = some 1 ∧
    project (exDup.getD 1 defaultMovie) =
      ⟨2, some ("Alpha"), some ("hero saves world"), some ("/b.jpg")⟩ ∧
    (recommend stDup 2).1 =
      Except.ok [⟨2, some ("Alpha"), some ("hero saves world"), some ("/b.jpg")⟩] := by
  refine ⟨rfl, rfl, ?_⟩
  have hstate : stDup = ⟨some exDup, some [some dD, some dD],
      some (tfidfMatrix [dD, dD]), some (cosineSimilarity (tfidfMatrix [dD, dD]))⟩ := by
    show (prepare (Except.ok exDup) initialState).1 = _
    rw [prepare_ok_state exDup initialState [some dD, some dD] [dD, dD] rfl rfl]
  have he : eDup = 1 := by
    apply dot_l2normalize_twice_self
    apply rawRow_dot_ne_zero
    · simp
    · decide
  have h1 : (recommend stDup 2).1 = recommendCore exDup [eDup, eDup] := by
    rw [hstate]
    rfl
  rw [h1, he]
  simp [recommendCore, sortDesc, insertDesc, project, exDup, defaultMovie]
  decide

end MovieFlix
